/-
  Verification of the BioNova medical image viewer against its
  natural-language specification.

  The Python sources under src/ are shallowly embedded below:
    * src/src/core/medical_logger.py   → the `Logger` namespace
    * src/src/core/image_processor.py  → the `Processor` namespace
    * src/src/core/vtk_renderer.py     → the `Renderer` namespace
    * src/src/main_application.py      → the `App` namespace

  External-library values (SimpleITK images, VTK poly data, scalar
  ranges) are abstracted as records of the fields the orchestration
  code actually inspects; scalar values are rationals.  Calls into the
  external libraries that can raise are modelled by outcome parameters
  supplied as input, standing for the environment's behaviour.
-/
import Mathlib

namespace Logger

/-- State of a `MedicalLogger` instance: the non-reentrant
`threading.Lock` (`self._lock`) and the three file-backed streams
(`medical_events.log`, `medical_errors.log`, `medical_audit.log`),
each modelled as the list of appended records. -/
structure State where
  locked : Bool
  events : List String
  errors : List String
  audit  : List String
  deriving DecidableEq

/-- A fresh logger's streams after `_setup_loggers`, lock free. -/
def initState : State := ⟨false, [], [], []⟩

/-- `threading.Lock.acquire` by the thread itself: a non-reentrant lock
that is already held blocks the caller forever, which the embedding
renders as `none` (the call never returns). -/
def tryAcquire (locked : Bool) : Option Bool :=
  if locked then none else some true

/-- Python's `str.upper()` (structurally recursive over the character
list, so that it evaluates inside the kernel). -/
def upper (s : String) : String :=
  ⟨s.data.map Char.toUpper⟩

/-- `MedicalLogger.log_event(event_type, message, severity)`
(medical_logger.py lines 131-152): take `self._lock`, format
`"{event_type} | {message}"`, then dispatch on `severity.upper()`:
INFO/WARNING append to the event stream, ERROR/CRITICAL append to both
the event and the error streams, anything else writes nothing. -/
def log_event (event_type message severity : String) (s : State) :
    Option State :=
  match tryAcquire s.locked with
  | none => none
  | some _ =>
    let fm := event_type ++ " | " ++ message
    let s1 : State := { s with locked := true }
    let sev := upper severity
    let s2 : State :=
      if sev = "INFO" then { s1 with events := s1.events ++ [fm] }
      else if sev = "WARNING" then { s1 with events := s1.events ++ [fm] }
      else if sev = "ERROR" then
        { s1 with events := s1.events ++ [fm], errors := s1.errors ++ [fm] }
      else if sev = "CRITICAL" then
        { s1 with events := s1.events ++ [fm], errors := s1.errors ++ [fm] }
      else s1
    some { s2 with locked := false }

/-- `MedicalLogger.log_user_action(action, details)` (lines 154-168):
build the message, take `self._lock`, append to the audit stream, and
— still holding the lock — call `self.log_event`, whose own acquire of
the same non-reentrant lock then blocks. -/
def log_user_action (action details : String) (s : State) : Option State :=
  let message :=
    "USER_ACTION | " ++ action ++
      (if details ≠ "" then " | " ++ details else "")
  match tryAcquire s.locked with
  | none => none
  | some _ =>
    let s1 : State := { s with locked := true, audit := s.audit ++ [message] }
    match log_event "USER_ACTION" (action ++ " - " ++ details) "INFO" s1 with
    | none => none
    | some s2 => some { s2 with locked := false }

/-- `MedicalLogger.log_file_operation(operation, filepath, result)`
(lines 170-187): under `self._lock`, append to the audit stream and
call `self.log_event` with severity INFO on "SUCCESS", ERROR
otherwise. -/
def log_file_operation (operation filepath result : String) (s : State) :
    Option State :=
  let message := "FILE_OP | " ++ operation ++ " | " ++ filepath ++ " | " ++ result
  match tryAcquire s.locked with
  | none => none
  | some _ =>
    let s1 : State := { s with locked := true, audit := s.audit ++ [message] }
    let inner :=
      if result = "SUCCESS" then log_event "FILE_OPERATION" message "INFO" s1
      else log_event "FILE_OPERATION" message "ERROR" s1
    match inner with
    | none => none
    | some s2 => some { s2 with locked := false }

/-- `MedicalLogger.log_image_processing(operation, image_info, result)`
(lines 189-206): same shape as `log_file_operation`. -/
def log_image_processing (operation image_info result : String) (s : State) :
    Option State :=
  let message :=
    "IMAGE_PROC | " ++ operation ++ " | " ++ image_info ++ " | " ++ result
  match tryAcquire s.locked with
  | none => none
  | some _ =>
    let s1 : State := { s with locked := true, audit := s.audit ++ [message] }
    let inner :=
      if result = "SUCCESS" then log_event "IMAGE_PROCESSING" message "INFO" s1
      else log_event "IMAGE_PROCESSING" message "ERROR" s1
    match inner with
    | none => none
    | some s2 => some { s2 with locked := false }

/-- `MedicalLogger.log_system_event(event, details)` (lines 208-222):
under `self._lock`, append to the audit stream and call
`self.log_event("SYSTEM", ..., "INFO")`. -/
def log_system_event (event details : String) (s : State) : Option State :=
  let message :=
    "SYSTEM | " ++ event ++ (if details ≠ "" then " | " ++ details else "")
  match tryAcquire s.locked with
  | none => none
  | some _ =>
    let s1 : State := { s with locked := true, audit := s.audit ++ [message] }
    match log_event "SYSTEM" (event ++ " - " ++ details) "INFO" s1 with
    | none => none
    | some s2 => some { s2 with locked := false }

/-- `MedicalLogger.log_error(error_type, error_message, stack_trace)`
(lines 224-240): under `self._lock`, append to the error and audit
streams and call `self.log_event("ERROR", ..., "ERROR")`. -/
def log_error (error_type error_message : String)
    (stack_trace : Option String) (s : State) : Option State :=
  let message :=
    "ERROR | " ++ error_type ++ " | " ++ error_message ++
      (match stack_trace with
       | some st => " | STACK: " ++ st
       | none => "")
  match tryAcquire s.locked with
  | none => none
  | some _ =>
    let s1 : State :=
      { s with locked := true,
               errors := s.errors ++ [message],
               audit := s.audit ++ [message] }
    match log_event "ERROR" message "ERROR" s1 with
    | none => none
    | some s2 => some { s2 with locked := false }

end Logger

/-- Abstraction of an in-memory image volume (a SimpleITK image or its
converted VTK counterpart): the orchestration code only ever inspects
its scalar range (`GetScalarRange`) and size (`GetSize`). -/
structure Volume where
  scalarMin : ℚ
  scalarMax : ℚ
  size : Nat × Nat × Nat
  deriving DecidableEq

/-- Abstraction of a VTK poly-data mesh: the orchestration code only
inspects `GetNumberOfPoints` and `GetNumberOfCells`. -/
structure Mesh where
  numPoints : Nat
  numCells : Nat
  deriving DecidableEq

namespace Renderer

/-- `self.current_display_mode` values `'2D'`, `'3D_VOLUME'`, `'STL'`. -/
inductive DisplayMode
  | mode2D
  | mode3D
  | modeSTL
  deriving DecidableEq

/-- The kinds of view prop the renderer ever adds to the scene. -/
inductive ActorKind
  | imageActor
  | volumeActor
  | stlActor
  deriving DecidableEq

/-- One `AddRGBPoint(x, r, g, b)` breakpoint of the colour transfer
function. -/
structure RGBPoint where
  x : ℚ
  r : ℚ
  g : ℚ
  b : ℚ
  deriving DecidableEq

/-- One `AddPoint(x, o)` breakpoint of the opacity transfer function. -/
structure OpacityPoint where
  x : ℚ
  o : ℚ
  deriving DecidableEq

/-- `VTKRenderer._setup_transfer_functions(vtk_image, preset)`
(vtk_renderer.py lines 384-427): reads the scalar range, clears both
transfer functions and installs the breakpoints of the named preset;
any name other than `"ct_bone"` and `"ct_soft_tissue"` falls through
to the `else` (default) branch. -/
def setup_transfer_functions (v : Volume) (preset : String) :
    List RGBPoint × List OpacityPoint :=
  let min_val := v.scalarMin
  let max_val := v.scalarMax
  if preset = "ct_bone" then
    ([⟨min_val, 0.0, 0.0, 0.0⟩,
      ⟨min_val + (max_val - min_val) * 0.2, 0.2, 0.1, 0.05⟩,
      ⟨min_val + (max_val - min_val) * 0.5, 0.8, 0.7, 0.6⟩,
      ⟨max_val, 1.0, 1.0, 1.0⟩],
     [⟨min_val, 0.0⟩,
      ⟨min_val + (max_val - min_val) * 0.1, 0.0⟩,
      ⟨min_val + (max_val - min_val) * 0.4, 0.5⟩,
      ⟨max_val, 1.0⟩])
  else if preset = "ct_soft_tissue" then
    ([⟨min_val, 0.0, 0.0, 0.0⟩,
      ⟨min_val + (max_val - min_val) * 0.3, 0.8, 0.4, 0.2⟩,
      ⟨min_val + (max_val - min_val) * 0.7, 1.0, 0.8, 0.6⟩,
      ⟨max_val, 1.0, 1.0, 1.0⟩],
     [⟨min_val, 0.0⟩,
      ⟨min_val + (max_val - min_val) * 0.2, 0.1⟩,
      ⟨min_val + (max_val - min_val) * 0.5, 0.4⟩,
      ⟨max_val, 0.8⟩])
  else
    ([⟨min_val, 0.0, 0.0, 0.0⟩,
      ⟨min_val + (max_val - min_val) * 0.3, 0.5, 0.2, 0.1⟩,
      ⟨min_val + (max_val - min_val) * 0.6, 1.0, 0.7, 0.6⟩,
      ⟨max_val, 1.0, 1.0, 1.0⟩],
     [⟨min_val, 0.0⟩,
      ⟨min_val + (max_val - min_val) * 0.1, 0.0⟩,
      ⟨min_val + (max_val - min_val) * 0.3, 0.3⟩,
      ⟨max_val, 1.0⟩])

/-- The display state of a `VTKRenderer` instance.  `available` is
true when VTK imported and `initialize_render_window` created the
renderer (the `if not VTK_AVAILABLE or not self.renderer` guard). -/
structure State where
  available : Bool
  currentVtkImage : Option Volume
  currentPolydata : Option Mesh
  currentDisplayMode : Option DisplayMode
  windowLevel : Option (ℚ × ℚ)
  colorFunc : List RGBPoint
  opacityFunc : List OpacityPoint
  actors : List ActorKind
  deriving DecidableEq

/-- Renderer state after `__init__` plus a successful
`initialize_render_window`. -/
def initState : State := ⟨true, none, none, none, none, [], [], []⟩

/-- Outcome of a display call's interaction with the underlying VTK
library, supplied as input.  `failEarly` models an exception raised
before the `self.current_... = ...` stores at the top of the `try`
block (observably: no mutation); `failLate` models an exception at the
final `self.render_window.Render()` call, after all stores. -/
inductive RenderOutcome
  | ok
  | failEarly
  | failLate
  deriving DecidableEq

/-- `VTKRenderer.display_2d_image(vtk_image, window, level)` (lines
121-189): clear all view props, store the image and set mode `'2D'`,
build a `vtkImageMapToWindowLevelColors`, defaulting a missing window
to `max - min` and a missing level to `(max + min) / 2` over the
scalar range, add the image actor, and render.  Returns `False`
without mutating when the renderer is unavailable or the exception is
raised before the stores. -/
def display_2d_image (v : Volume) (window level : Option ℚ)
    (out : RenderOutcome) (r : State) : Bool × State :=
  if !r.available then (false, r)
  else match out with
  | .failEarly => (false, r)
  | out =>
    let w := window.getD (v.scalarMax - v.scalarMin)
    let l := level.getD ((v.scalarMax + v.scalarMin) / 2)
    let r1 : State :=
      { r with currentVtkImage := some v,
               currentDisplayMode := some .mode2D,
               windowLevel := some (w, l),
               actors := [.imageActor] }
    (out = .ok, r1)

/-- `VTKRenderer.display_3d_volume(vtk_image, preset)` (lines
191-262): clear all view props, store the image and set mode
`'3D_VOLUME'`, build fresh transfer functions via
`_setup_transfer_functions`, add the volume prop, and render. -/
def display_3d_volume (v : Volume) (preset : String)
    (out : RenderOutcome) (r : State) : Bool × State :=
  if !r.available then (false, r)
  else match out with
  | .failEarly => (false, r)
  | out =>
    let tf := setup_transfer_functions v preset
    let r1 : State :=
      { r with currentVtkImage := some v,
               currentDisplayMode := some .mode3D,
               colorFunc := tf.1,
               opacityFunc := tf.2,
               actors := [.volumeActor] }
    (out = .ok, r1)

/-- `VTKRenderer.display_stl_model(polydata, color)` (lines 264-325):
clear all view props, store the poly data and set mode `'STL'`, build
the surface actor, and render.  The fixed material/colour parameters
are applied to the actor and not otherwise observed, so the embedding
keeps only the actor kind. -/
def display_stl_model (m : Mesh) (out : RenderOutcome) (r : State) :
    Bool × State :=
  if !r.available then (false, r)
  else match out with
  | .failEarly => (false, r)
  | out =>
    let r1 : State :=
      { r with currentPolydata := some m,
               currentDisplayMode := some .modeSTL,
               actors := [.stlActor] }
    (out = .ok, r1)

/-- `VTKRenderer.update_window_level(window, level)` (lines 327-355):
returns `False` unchanged unless a windowing transform exists and the
display mode is `'2D'`; otherwise mutates the existing transform in
place via `SetWindow`/`SetLevel` and re-renders. -/
def update_window_level (window level : ℚ) (r : State) : Bool × State :=
  if r.windowLevel = none ∨ r.currentDisplayMode ≠ some .mode2D then
    (false, r)
  else
    (true, { r with windowLevel := some (window, level) })

/-- `VTKRenderer.update_3d_transfer_function(preset)` (lines 357-382):
returns `False` unchanged unless an image is resident and the display
mode is `'3D_VOLUME'`; otherwise re-runs `_setup_transfer_functions`
on the resident image and re-renders. -/
def update_3d_transfer_function (preset : String) (r : State) :
    Bool × State :=
  match r.currentVtkImage with
  | none => (false, r)
  | some v =>
    if r.currentDisplayMode ≠ some .mode3D then (false, r)
    else
      let tf := setup_transfer_functions v preset
      (true, { r with colorFunc := tf.1, opacityFunc := tf.2 })

/-- `VTKRenderer.clear_display()` (lines 458-469): if the renderer
exists, remove all view props and render; then reset the resident
image, poly data and display mode.  The windowing transform and
transfer functions are left as they are. -/
def clear_display (r : State) : State :=
  { r with actors := if r.available then [] else r.actors,
           currentVtkImage := none,
           currentPolydata := none,
           currentDisplayMode := none }

end Renderer

namespace Processor

/-- The string-keyed metadata dictionary `self.image_metadata`,
replaced wholesale on every successful load. -/
abbrev Dict := List (String × String)

/-- Environment-supplied behaviour of one `load_dicom_series(directory)`
call: whether the directory exists, the file-name lists
`GetGDCMSeriesFileNames` returns for each series id of
`GetGDCMSeriesIDs`, and the result of `series_reader.Execute()`
(`none` models the reader raising). -/
structure DicomInput where
  directory : String
  dirExists : Bool
  series : List (List String)
  readResult : Option Volume
  deriving DecidableEq

/-- Environment-supplied behaviour of one `load_stl_file(filepath)`
call: whether the file exists and what `vtkSTLReader` produces
(`none` models the reader raising or returning a null output). -/
structure StlInput where
  filepath : String
  fileExists : Bool
  readOutput : Option Mesh
  deriving DecidableEq

/-- State of an `ImageProcessor` instance (image_processor.py):
the three single-slot data members and the metadata map. -/
structure State where
  currentSitkImage : Option Volume
  currentVtkImage : Option Volume
  currentPolydata : Option Mesh
  imageMetadata : Dict
  deriving DecidableEq

/-- Processor state right after `__init__`. -/
def initState : State := ⟨none, none, none, []⟩

/-- `ImageProcessor._extract_dicom_metadata(image, num_files)` (lines
287-311): builds a fresh dictionary from the image's properties and
assigns it to `self.image_metadata`.  The embedding keeps the fields
derivable from the abstract `Volume` plus the file count. -/
def dicomMetadata (img : Volume) (numFiles : Nat) : Dict :=
  [("image_type", "DICOM"),
   ("size", toString img.size.1 ++ "x" ++ toString img.size.2.1 ++ "x" ++
      toString img.size.2.2),
   ("num_files", toString numFiles)]

/-- `ImageProcessor._extract_stl_metadata(polydata, filepath)` (lines
313-330): builds a fresh dictionary with the mesh's counts and path
and assigns it to `self.image_metadata`. -/
def stlMetadata (m : Mesh) (filepath : String) : Dict :=
  [("image_type", "STL"),
   ("filepath", filepath),
   ("num_points", toString m.numPoints),
   ("num_cells", toString m.numCells)]

/-- `ImageProcessor.load_dicom_series(directory)` (lines 63-136):
fail (return `None`, emitting an error message) when the directory is
absent, when `GetGDCMSeriesIDs` is empty, when the first series has no
file names, or when `Execute()` raises; on success store the image in
`self.current_sitk_image`, replace `self.image_metadata`, emit
`imageLoaded` and return the image.  All failure checks precede the
store, so failures mutate nothing.  Returns the optional image, the
new state, and the `errorOccurred` messages emitted. -/
def load_dicom_series (inp : DicomInput) (p : State) :
    Option Volume × State × List String :=
  if !inp.dirExists then
    (none, p, ["Directory does not exist: " ++ inp.directory])
  else match inp.series with
  | [] => (none, p, ["No DICOM series found in directory: " ++ inp.directory])
  | dicom_names :: _ =>
    if dicom_names.isEmpty then
      (none, p, ["No DICOM files found for series"])
    else match inp.readResult with
    | none => (none, p, ["Failed to load DICOM series: library error"])
    | some image =>
      let p1 : State :=
        { p with currentSitkImage := some image,
                 imageMetadata := dicomMetadata image dicom_names.length }
      (some image, p1, [])

/-- `ImageProcessor.load_stl_file(filepath)` (lines 138-199): fail
when the file is absent, when the reader raises, or when the resulting
poly data has zero points; on success store the poly data in
`self.current_polydata`, replace `self.image_metadata`, emit
`imageLoaded` and return it.  All failure checks precede the store. -/
def load_stl_file (inp : StlInput) (p : State) :
    Option Mesh × State × List String :=
  if !inp.fileExists then
    (none, p, ["STL file does not exist: " ++ inp.filepath])
  else match inp.readOutput with
  | none => (none, p, ["Failed to load STL file: library error"])
  | some polydata =>
    if polydata.numPoints = 0 then
      (none, p, ["Invalid or empty STL file: " ++ inp.filepath])
    else
      let p1 : State :=
        { p with currentPolydata := some polydata,
                 imageMetadata := stlMetadata polydata inp.filepath }
      (some polydata, p1, [])

/-- `ImageProcessor.convert_sitk_to_vtk(sitk_image)` (lines 201-254):
copy dimensions, spacing, origin and the flattened scalar buffer into
a new VTK image and store it in `self.current_vtk_image`.  `convOk =
false` models an exception inside the conversion, which is raised
before the store, so a failed conversion mutates nothing.  The
converted image carries the same abstract content. -/
def convert_sitk_to_vtk (convOk : Bool) (img : Volume) (p : State) :
    Option Volume × State × List String :=
  if convOk then
    (some img, { p with currentVtkImage := some img }, [])
  else
    (none, p, ["Failed to convert SimpleITK to VTK: library error"])

/-- `ImageProcessor.validate_dicom_integrity(directory)` (lines
341-373): valid iff `GetGDCMSeriesIDs` is non-empty and every series
has a non-empty file-name list. -/
def validate_dicom_integrity (inp : DicomInput) : Bool × String :=
  match inp.series with
  | [] => (false, "No DICOM series found")
  | series =>
    if series.all (fun names => !names.isEmpty) then
      (true, "DICOM series validation successful")
    else
      (false, "No files found for series")

/-- `ImageProcessor.get_metadata()` (lines 332-339): returns
`self.image_metadata.copy()`.  In this pure embedding the value is the
current contents; the copy-vs-alias distinction is settled separately
on the heap model below. -/
def get_metadata (p : State) : Dict := p.imageMetadata

/-- `ImageProcessor.clear_current_data()` (lines 375-382): reset all
three slots to `None` and the metadata map to `{}`. -/
def clear_current_data (_p : State) : State := initState

end Processor

namespace App

/-- `self.current_image_type` values `"DICOM"` and `"STL"`. -/
inductive ImgType
  | dicom
  | stl
  deriving DecidableEq

/-- UI-facing events emitted by `MedicalImageViewerApp`
(`errorOccurred` and `statusUpdate` signals). -/
inductive Ev
  | error (msg : String)
  | status (msg : String)
  deriving DecidableEq

/-- Whether an event is an `errorOccurred` emission. -/
def Ev.isError : Ev → Bool
  | .error _ => true
  | .status _ => false

/-- State of a `MedicalImageViewerApp` instance (main_application.py):
its processor, its renderer, and the three own data members.  Logger
calls do not touch this state and are elided here; their behaviour is
the subject of the `Logger` namespace. -/
structure State where
  proc : Processor.State
  rend : Renderer.State
  currentImageType : Option ImgType
  currentFilePath : Option String
  is3dView : Bool
  deriving DecidableEq

/-- Application state after `__init__` and VTK initialization. -/
def initState : State :=
  ⟨Processor.initState, Renderer.initState, none, none, false⟩

/-- `MedicalImageViewerApp.loadDicomSeries(directory_url)` (lines
128-177) for a URL resolving to a non-empty local path: status update,
`validate_dicom_integrity`, then `load_dicom_series`,
`convert_sitk_to_vtk`, `display_2d_image` in sequence, each failure
emitting an error and stopping; full success sets
`current_image_type = "DICOM"`, the file path and `is_3d_view =
False`.  Processor `errorOccurred` emissions are re-emitted by
`_on_error_occurred`. -/
def loadDicomSeries (inp : Processor.DicomInput) (convOk : Bool)
    (rout : Renderer.RenderOutcome) (s : State) : State × List Ev :=
  let ev0 : List Ev := [.status "Loading DICOM series..."]
  let val := Processor.validate_dicom_integrity inp
  if !val.1 then
    (s, ev0 ++ [.error ("DICOM validation failed: " ++ val.2)])
  else
    let lres := Processor.load_dicom_series inp s.proc
    let ev1 := ev0 ++ lres.2.2.map Ev.error
    match lres.1 with
    | none =>
      ({ s with proc := lres.2.1 },
       ev1 ++ [.error "Failed to load DICOM series"])
    | some image =>
      let cres := Processor.convert_sitk_to_vtk convOk image lres.2.1
      let ev2 := ev1 ++ cres.2.2.map Ev.error
      match cres.1 with
      | none =>
        ({ s with proc := cres.2.1 },
         ev2 ++ [.error "Failed to convert DICOM to display format"])
      | some vtk_image =>
        let dres := Renderer.display_2d_image vtk_image none none rout s.rend
        if dres.1 then
          ({ s with proc := cres.2.1, rend := dres.2,
                    currentImageType := some .dicom,
                    currentFilePath := some inp.directory,
                    is3dView := false },
           ev2 ++ [.status "DICOM series loaded successfully"])
        else
          ({ s with proc := cres.2.1, rend := dres.2 },
           ev2 ++ [.error "Failed to display DICOM image"])

/-- `MedicalImageViewerApp.loadStlFile(file_url)` (lines 179-217) for
a URL resolving to a non-empty local path: status update,
`load_stl_file`, then `display_stl_model`; full success sets
`current_image_type = "STL"`, the file path and `is_3d_view = True`. -/
def loadStlFile (inp : Processor.StlInput)
    (rout : Renderer.RenderOutcome) (s : State) : State × List Ev :=
  let ev0 : List Ev := [.status "Loading STL file..."]
  let lres := Processor.load_stl_file inp s.proc
  let ev1 := ev0 ++ lres.2.2.map Ev.error
  match lres.1 with
  | none =>
    ({ s with proc := lres.2.1 }, ev1 ++ [.error "Failed to load STL file"])
  | some polydata =>
    let dres := Renderer.display_stl_model polydata rout s.rend
    if dres.1 then
      ({ s with proc := lres.2.1, rend := dres.2,
                currentImageType := some .stl,
                currentFilePath := some inp.filepath,
                is3dView := true },
       ev1 ++ [.status "STL file loaded successfully"])
    else
      ({ s with proc := lres.2.1, rend := dres.2 },
       ev1 ++ [.error "Failed to display STL model"])

/-- `MedicalImageViewerApp.switchTo2DView()` (lines 219-245): refused
unless `current_image_type == "DICOM"`; re-displays the resident
converted image in 2D and clears `is_3d_view` on success. -/
def switchTo2DView (rout : Renderer.RenderOutcome) (s : State) :
    State × List Ev :=
  if s.currentImageType ≠ some .dicom then
    (s, [.error "2D view only available for DICOM images"])
  else
    match s.proc.currentVtkImage with
    | none => (s, [.error "No image data available for 2D view"])
    | some vtk_image =>
      let dres := Renderer.display_2d_image vtk_image none none rout s.rend
      if dres.1 then
        ({ s with rend := dres.2, is3dView := false },
         [.status "Switched to 2D view"])
      else
        ({ s with rend := dres.2 }, [.error "Failed to switch to 2D view"])

/-- `MedicalImageViewerApp.switchTo3DView()` (lines 247-273): refused
unless `current_image_type == "DICOM"`; displays the resident
converted image as a volume with the default preset and sets
`is_3d_view` on success. -/
def switchTo3DView (rout : Renderer.RenderOutcome) (s : State) :
    State × List Ev :=
  if s.currentImageType ≠ some .dicom then
    (s, [.error "3D view only available for DICOM images"])
  else
    match s.proc.currentVtkImage with
    | none => (s, [.error "No image data available for 3D view"])
    | some vtk_image =>
      let dres := Renderer.display_3d_volume vtk_image "default" rout s.rend
      if dres.1 then
        ({ s with rend := dres.2, is3dView := true },
         [.status "Switched to 3D view"])
      else
        ({ s with rend := dres.2 }, [.error "Failed to switch to 3D view"])

/-- `MedicalImageViewerApp.updateWindowLevel(window, level)` (lines
275-298): silently ignored unless a DICOM image is loaded and the 2D
view is active; otherwise delegates to the renderer and emits an error
if that reports failure. -/
def updateWindowLevel (window level : ℚ) (s : State) : State × List Ev :=
  if s.currentImageType ≠ some .dicom ∨ s.is3dView then (s, [])
  else
    let ures := Renderer.update_window_level window level s.rend
    if ures.1 then ({ s with rend := ures.2 }, [])
    else ({ s with rend := ures.2 }, [.error "Failed to update window/level"])

/-- `MedicalImageViewerApp.update3DPreset(preset)` (lines 300-324):
silently ignored unless a DICOM image is loaded and the 3D view is
active; otherwise delegates to the renderer. -/
def update3DPreset (preset : String) (s : State) : State × List Ev :=
  if s.currentImageType ≠ some .dicom ∨ !s.is3dView then (s, [])
  else
    let ures := Renderer.update_3d_transfer_function preset s.rend
    if ures.1 then
      ({ s with rend := ures.2 }, [.status ("Applied 3D preset: " ++ preset)])
    else
      ({ s with rend := ures.2 }, [.error "Failed to update 3D preset"])

/-- `MedicalImageViewerApp.resetCamera()` (lines 326-337): camera-only
operation; no effect on the modelled state. -/
def resetCamera (s : State) : State × List Ev :=
  (s, [.status "Camera view reset"])

/-- `MedicalImageViewerApp.clearDisplay()` (lines 339-361): clear the
renderer, clear the processor data, reset the own three members, and
emit a status update. -/
def clearDisplay (s : State) : State × List Ev :=
  ({ s with rend := Renderer.clear_display s.rend,
            proc := Processor.clear_current_data s.proc,
            currentImageType := none,
            currentFilePath := none,
            is3dView := false },
   [.status "Display cleared"])

/-- One UI-triggered operation together with the environment behaviour
(load inputs, library outcomes) it encounters. -/
inductive Op
  | loadDicom (inp : Processor.DicomInput) (convOk : Bool)
      (rout : Renderer.RenderOutcome)
  | loadStl (inp : Processor.StlInput) (rout : Renderer.RenderOutcome)
  | switch2D (rout : Renderer.RenderOutcome)
  | switch3D (rout : Renderer.RenderOutcome)
  | setWindowLevel (window level : ℚ)
  | setPreset (preset : String)
  | resetCam
  | clearOp

/-- Run one operation, discarding the emitted events. -/
def runOp (s : State) : Op → State
  | .loadDicom inp convOk rout => (loadDicomSeries inp convOk rout s).1
  | .loadStl inp rout => (loadStlFile inp rout s).1
  | .switch2D rout => (switchTo2DView rout s).1
  | .switch3D rout => (switchTo3DView rout s).1
  | .setWindowLevel w l => (updateWindowLevel w l s).1
  | .setPreset p => (update3DPreset p s).1
  | .resetCam => (resetCamera s).1
  | .clearOp => (clearDisplay s).1

/-- Run a sequence of operations from a starting state. -/
def runOps (s : State) : List Op → State
  | [] => s
  | op :: ops => runOps (runOp s op) ops

end App

namespace Heap

/-
  A reference-level model of `ImageProcessor.get_metadata`, needed
  because dictionary aliasing is invisible in the pure state model: a
  store of dictionary objects addressed by allocation order.  The
  values held in the metadata dictionary (strings, numbers, tuples)
  are immutable in Python, so caller mutations are dictionary-level
  updates on the returned object.
-/

/-- The store: cell `a` holds the contents of the dictionary object at
address `a`. -/
structure Store where
  cells : List Processor.Dict
  deriving DecidableEq

/-- Read the dictionary at an address (absent addresses read as `{}`,
never reached for valid addresses). -/
def readDict (h : Store) (a : Nat) : Processor.Dict :=
  (h.cells.get? a).getD []

/-- Allocate a fresh dictionary object holding `d`, returning its
address. -/
def alloc (h : Store) (d : Processor.Dict) : Store × Nat :=
  (⟨h.cells ++ [d]⟩, h.cells.length)

/-- An in-place mutation of the dictionary object at address `a` by
its holder (covers item assignment, deletion, `update`, `clear`: any
of these replaces the object's contents with some new contents `d`). -/
def writeDict (h : Store) (a : Nat) (d : Processor.Dict) : Store :=
  ⟨h.cells.set a d⟩

/-- An `ImageProcessor` as seen by the store: the address of the
dictionary object bound to `self.image_metadata`. -/
structure ProcRef where
  metaAddr : Nat
  deriving DecidableEq

/-- `ImageProcessor.get_metadata()` (image_processor.py lines
332-339) at the reference level: `self.image_metadata.copy()`
allocates a fresh dictionary with the same contents and returns it;
`self.image_metadata` keeps its own object. -/
def get_metadata (h : Store) (p : ProcRef) : Store × Nat :=
  alloc h (readDict h p.metaAddr)

end Heap

/-- Spec-side invariant (spec.md §3) at the renderer: the Display Mode
matches the type of the resident display data — the 2D and 3D-Volume
modes have a resident volume, the STL mode a resident mesh. -/
def DisplayModeConsistent (r : Renderer.State) : Prop :=
  (r.currentDisplayMode = some .mode2D ∨
     r.currentDisplayMode = some .mode3D →
   r.currentVtkImage.isSome = true) ∧
  (r.currentDisplayMode = some .modeSTL →
   r.currentPolydata.isSome = true)

instance (r : Renderer.State) : Decidable (DisplayModeConsistent r) :=
  inferInstanceAs (Decidable (_ ∧ _))

/-- Spec-side invariant (spec.md §3) at the application: the Display
Mode matches the type of the resident display data. -/
def ModeMatchesData (s : App.State) : Prop :=
  DisplayModeConsistent s.rend

instance (s : App.State) : Decidable (ModeMatchesData s) :=
  inferInstanceAs (Decidable (DisplayModeConsistent s.rend))

/-- A sample volume for concrete runs: scalar range [0, 100]. -/
def sampleVolume : Volume := ⟨0, 100, (2, 2, 2)⟩

/-- A sample mesh for concrete runs. -/
def sampleMesh : Mesh := ⟨8, 12⟩

/-- A well-formed DICOM directory: exists, one two-file series, the
read succeeds. -/
def sampleDicomInput : Processor.DicomInput :=
  ⟨"/data/ct", true, [["a.dcm", "b.dcm"]], some sampleVolume⟩

/-- A well-formed STL file: exists, reads to a non-empty mesh. -/
def sampleStlInput : Processor.StlInput :=
  ⟨"/data/model.stl", true, some sampleMesh⟩

/-- A renderer state sitting in 3D-Volume mode on `sampleVolume`. -/
def sample3DRendererState : Renderer.State :=
  ⟨true, some sampleVolume, none, some .mode3D, none,
   (Renderer.setup_transfer_functions sampleVolume "default").1,
   (Renderer.setup_transfer_functions sampleVolume "default").2,
   [.volumeActor]⟩

/-- A renderer state sitting in STL mode on `sampleMesh`, with a
windowing transform left over from an earlier 2D display. -/
def sampleStlRendererState : Renderer.State :=
  ⟨true, none, some sampleMesh, some .modeSTL, some (100, 50), [], [],
   [.stlActor]⟩

/-- A renderer state sitting in 2D mode on `sampleVolume`. -/
def sample2DRendererState : Renderer.State :=
  ⟨true, some sampleVolume, none, some .mode2D, some (100, 50), [], [],
   [.imageActor]⟩


/-- C1: the spec claims every logging operation of the Audit Logger
terminates and appends its record, the internal mutex merely
serializing writes, including for reentrant calls.  In the code,
`self._lock` is a non-reentrant `threading.Lock`, and every compound
method (`log_user_action`, `log_file_operation`,
`log_image_processing`, `log_system_event`, `log_error`) calls
`self.log_event` while already holding that lock, so the nested
acquire blocks the calling thread forever: only `log_event` itself
returns; the other five never do (modelled as `none`). -/
theorem C1_compound_logging_calls_never_return :
    (Logger.log_event "SYSTEM" "Medical Logger initialized" "INFO"
        Logger.initState).isSome = true ∧
    Logger.log_user_action "APPLICATION_LAUNCH"
        "User launched the application" Logger.initState = none ∧
    Logger.log_file_operation "DICOM_LOAD_START" "/data/ct" "SUCCESS"
        Logger.initState = none ∧
    Logger.log_image_processing "2D_DISPLAY" "Window: 100, Level: 50"
        "SUCCESS" Logger.initState = none ∧
    Logger.log_system_event "APPLICATION_START"
        "Medical Image Viewer started" Logger.initState = none ∧
    Logger.log_error "DICOM_LOAD" "Failed to load DICOM series" none
        Logger.initState = none := by
  decide

/-- C2 counterexample: the claim says every write of `log_event` is
additionally duplicated to the audit stream.  Calling
`log_event("SYSTEM", "boot", "INFO")` on a fresh logger appends the
record to the event stream but leaves the audit stream empty:
`log_event` never touches the audit logger. -/
theorem C2_counterexample :
    (Logger.log_event "SYSTEM" "boot" "INFO" Logger.initState).map
        Logger.State.events = some ["SYSTEM | boot"] ∧
    (Logger.log_event "SYSTEM" "boot" "INFO" Logger.initState).map
        Logger.State.audit = some [] := by
  decide

/-- C2 amended: for severities whose upper-casing is one of INFO,
WARNING, ERROR, CRITICAL, `log_event` appends exactly one record
`"{event_type} | {message}"` to the event stream, additionally appends
it to the error stream exactly when the severity is ERROR or CRITICAL,
and never writes the audit stream (which only the audit-specific
methods write). -/
theorem C2_log_event_streams (event_type message severity : String)
    (s : Logger.State) (hfree : s.locked = false)
    (hsev : Logger.upper severity = "INFO" ∨ Logger.upper severity = "WARNING" ∨
            Logger.upper severity = "ERROR" ∨ Logger.upper severity = "CRITICAL") :
    Logger.log_event event_type message severity s =
      some { s with
        events := s.events ++ [event_type ++ " | " ++ message],
        errors := s.errors ++
          (if Logger.upper severity = "ERROR" ∨ Logger.upper severity = "CRITICAL"
           then [event_type ++ " | " ++ message] else []),
        audit := s.audit } := by
  rcases hsev with h | h | h | h <;>
    simp [Logger.log_event, Logger.tryAcquire, hfree, h]

/-- C2 amended, witness: `C2_log_event_streams` applied to
`log_event("FILE_LOAD", "loaded", "ERROR")` on a fresh logger. -/
theorem C2_log_event_streams_witness :
    Logger.log_event "FILE_LOAD" "loaded" "ERROR" Logger.initState =
      some { Logger.initState with
        events := ["FILE_LOAD | loaded"],
        errors := ["FILE_LOAD | loaded"] } := by
  have h := C2_log_event_streams "FILE_LOAD" "loaded" "ERROR"
    Logger.initState rfl (by decide)
  simpa using h

/-- C3 counterexample: the claim says at most one of the resident
Loaded Volume (`current_sitk_image`) and Loaded Mesh
(`current_polydata`) is set at every reachable point.  Loading a DICOM
series and then an STL file (both succeeding) leaves both resident:
`load_stl_file` never clears `current_sitk_image`, and
`load_dicom_series` never clears `current_polydata`. -/
theorem C3_counterexample :
    (App.runOps App.initState
        [.loadDicom sampleDicomInput true .ok,
         .loadStl sampleStlInput .ok]).proc.currentSitkImage =
      some sampleVolume ∧
    (App.runOps App.initState
        [.loadDicom sampleDicomInput true .ok,
         .loadStl sampleStlInput .ok]).proc.currentPolydata =
      some sampleMesh := by
  decide

/-- `display_2d_image` preserves mode/data consistency: it either
leaves the renderer unchanged or leaves it in 2D mode with the
displayed image resident. -/
theorem displayModeConsistent_display_2d (v : Volume) (w l : Option ℚ)
    (out : Renderer.RenderOutcome) (r : Renderer.State)
    (h : DisplayModeConsistent r) :
    DisplayModeConsistent (Renderer.display_2d_image v w l out r).2 := by
  unfold Renderer.display_2d_image
  cases hav : r.available <;> cases out <;>
    simp_all [DisplayModeConsistent]

/-- `display_3d_volume` preserves mode/data consistency. -/
theorem displayModeConsistent_display_3d (v : Volume) (preset : String)
    (out : Renderer.RenderOutcome) (r : Renderer.State)
    (h : DisplayModeConsistent r) :
    DisplayModeConsistent (Renderer.display_3d_volume v preset out r).2 := by
  unfold Renderer.display_3d_volume
  cases hav : r.available <;> cases out <;>
    simp_all [DisplayModeConsistent]

/-- `display_stl_model` preserves mode/data consistency. -/
theorem displayModeConsistent_display_stl (m : Mesh)
    (out : Renderer.RenderOutcome) (r : Renderer.State)
    (h : DisplayModeConsistent r) :
    DisplayModeConsistent (Renderer.display_stl_model m out r).2 := by
  unfold Renderer.display_stl_model
  cases hav : r.available <;> cases out <;>
    simp_all [DisplayModeConsistent]

/-- `update_window_level` touches only the windowing transform, so it
preserves mode/data consistency. -/
theorem displayModeConsistent_update_wl (w l : ℚ) (r : Renderer.State)
    (h : DisplayModeConsistent r) :
    DisplayModeConsistent (Renderer.update_window_level w l r).2 := by
  unfold Renderer.update_window_level
  split <;> simp_all [DisplayModeConsistent]

/-- `update_3d_transfer_function` touches only the transfer functions,
so it preserves mode/data consistency. -/
theorem displayModeConsistent_update_tf (preset : String)
    (r : Renderer.State) (h : DisplayModeConsistent r) :
    DisplayModeConsistent
      (Renderer.update_3d_transfer_function preset r).2 := by
  unfold Renderer.update_3d_transfer_function
  split
  · exact h
  · split <;> simp_all [DisplayModeConsistent]

/-- `clear_display` resets the mode to `None`, which is trivially
consistent. -/
theorem displayModeConsistent_clear (r : Renderer.State) :
    DisplayModeConsistent (Renderer.clear_display r) := by
  simp [Renderer.clear_display, DisplayModeConsistent]

/-- Every UI operation preserves mode/data consistency of the
renderer. -/
theorem modeMatchesData_runOp (s : App.State) (op : App.Op)
    (h : ModeMatchesData s) : ModeMatchesData (App.runOp s op) := by
  have h' : DisplayModeConsistent s.rend := h
  cases op with
  | loadDicom inp convOk rout =>
      show ModeMatchesData (App.loadDicomSeries inp convOk rout s).1
      unfold App.loadDicomSeries
      dsimp only
      repeat' split
      all_goals
        first
        | exact h
        | exact displayModeConsistent_display_2d _ none none rout s.rend h'
  | loadStl inp rout =>
      show ModeMatchesData (App.loadStlFile inp rout s).1
      unfold App.loadStlFile
      dsimp only
      repeat' split
      all_goals
        first
        | exact h
        | exact displayModeConsistent_display_stl _ rout s.rend h'
  | switch2D rout =>
      show ModeMatchesData (App.switchTo2DView rout s).1
      unfold App.switchTo2DView
      dsimp only
      repeat' split
      all_goals
        first
        | exact h
        | exact displayModeConsistent_display_2d _ none none rout s.rend h'
  | switch3D rout =>
      show ModeMatchesData (App.switchTo3DView rout s).1
      unfold App.switchTo3DView
      dsimp only
      repeat' split
      all_goals
        first
        | exact h
        | exact displayModeConsistent_display_3d _ "default" rout s.rend h'
  | setWindowLevel w l =>
      show ModeMatchesData (App.updateWindowLevel w l s).1
      unfold App.updateWindowLevel
      dsimp only
      repeat' split
      all_goals
        first
        | exact h
        | exact displayModeConsistent_update_wl w l s.rend h'
  | setPreset p =>
      show ModeMatchesData (App.update3DPreset p s).1
      unfold App.update3DPreset
      dsimp only
      repeat' split
      all_goals
        first
        | exact h
        | exact displayModeConsistent_update_tf p s.rend h'
  | resetCam => exact h
  | clearOp =>
      show ModeMatchesData (App.clearDisplay s).1
      exact displayModeConsistent_clear s.rend

/-- C3 amended: at every point reachable by any sequence of load,
display, switch, update, and clear operations, the Display Mode
matches the type of resident display data (2D and 3D-Volume modes have
a resident volume, STL mode a resident mesh); each successful DICOM
load overwrites the volume slot and the Metadata Map, and each
successful STL load overwrites the mesh slot and the Metadata Map —
but neither load clears the other slot, so both a Loaded Volume and a
Loaded Mesh can be resident simultaneously. -/
theorem C3_mode_matches_and_loads_overwrite :
    (∀ ops : List App.Op, ModeMatchesData (App.runOps App.initState ops)) ∧
    (∀ (s : App.State) (inp : Processor.DicomInput) (convOk : Bool)
        (rout : Renderer.RenderOutcome) (img : Volume) (names : List String)
        (rest : List (List String)),
      inp.dirExists = true → inp.series = names :: rest →
      ((names :: rest).all fun l => !l.isEmpty) = true →
      inp.readResult = some img →
      (App.loadDicomSeries inp convOk rout s).1.proc.currentSitkImage =
          some img ∧
        (App.loadDicomSeries inp convOk rout s).1.proc.imageMetadata =
          Processor.dicomMetadata img names.length ∧
        (App.loadDicomSeries inp convOk rout s).1.proc.currentPolydata =
          s.proc.currentPolydata) ∧
    (∀ (s : App.State) (inp : Processor.StlInput)
        (rout : Renderer.RenderOutcome) (m : Mesh),
      inp.fileExists = true → inp.readOutput = some m → m.numPoints ≠ 0 →
      (App.loadStlFile inp rout s).1.proc.currentPolydata = some m ∧
        (App.loadStlFile inp rout s).1.proc.imageMetadata =
          Processor.stlMetadata m inp.filepath ∧
        (App.loadStlFile inp rout s).1.proc.currentSitkImage =
          s.proc.currentSitkImage) := by
  refine ⟨?_, ?_, ?_⟩
  · have hrun : ∀ (ops : List App.Op) (s : App.State), ModeMatchesData s →
        ModeMatchesData (App.runOps s ops) := by
      intro ops
      induction ops with
      | nil => intro s hs; exact hs
      | cons op ops ih =>
          intro s hs
          exact ih _ (modeMatchesData_runOp s op hs)
    intro ops
    exact hrun ops App.initState (by decide)
  · intro s inp convOk rout img names rest hd hser hall hread
    have hne : names.isEmpty = false := by
      simp [List.all_cons] at hall
      rcases hall with ⟨h1, _⟩
      simpa using h1
    unfold App.loadDicomSeries Processor.validate_dicom_integrity
      Processor.load_dicom_series Processor.convert_sitk_to_vtk
    rw [hser]
    cases convOk <;> simp [hall, hd, hne, hread]
    all_goals try split
    all_goals simp
  · intro s inp rout m hf hread hpts
    unfold App.loadStlFile Processor.load_stl_file
    simp [hf, hread, hpts]
    try split
    all_goals simp

/-- C3 amended, witness: the reachability invariant after a
DICOM-then-STL run, and the overwrite behaviour of both loads on the
sample inputs. -/
theorem C3_mode_matches_and_loads_overwrite_witness :
    ModeMatchesData (App.runOps App.initState
        [.loadDicom sampleDicomInput true .ok,
         .loadStl sampleStlInput .ok]) ∧
    ((App.loadDicomSeries sampleDicomInput true .ok
          App.initState).1.proc.currentSitkImage = some sampleVolume ∧
      (App.loadDicomSeries sampleDicomInput true .ok
          App.initState).1.proc.imageMetadata =
        Processor.dicomMetadata sampleVolume 2 ∧
      (App.loadDicomSeries sampleDicomInput true .ok
          App.initState).1.proc.currentPolydata =
        App.initState.proc.currentPolydata) ∧
    ((App.loadStlFile sampleStlInput .ok
          App.initState).1.proc.currentPolydata = some sampleMesh ∧
      (App.loadStlFile sampleStlInput .ok
          App.initState).1.proc.imageMetadata =
        Processor.stlMetadata sampleMesh "/data/model.stl" ∧
      (App.loadStlFile sampleStlInput .ok
          App.initState).1.proc.currentSitkImage =
        App.initState.proc.currentSitkImage) :=
  ⟨C3_mode_matches_and_loads_overwrite.1
      [.loadDicom sampleDicomInput true .ok, .loadStl sampleStlInput .ok],
   C3_mode_matches_and_loads_overwrite.2.1 App.initState sampleDicomInput
      true .ok sampleVolume ["a.dcm", "b.dcm"] [] rfl rfl (by decide) rfl,
   C3_mode_matches_and_loads_overwrite.2.2 App.initState sampleStlInput
      .ok sampleMesh rfl rfl (by decide)⟩

/-- C4 counterexample: the claim says every failing load leaves the
resident slot, Metadata Map and Display Mode unchanged.  On a valid
DICOM directory whose read succeeds but whose conversion to the
renderer format raises (a wrapped library error), `loadDicomSeries`
reports failure — yet `current_sitk_image` and the Metadata Map have
already been overwritten by the new load. -/
theorem C4_counterexample :
    ((App.loadDicomSeries sampleDicomInput false .ok App.initState).2.any
        App.Ev.isError) = true ∧
    (App.loadDicomSeries sampleDicomInput false .ok
        App.initState).1.proc.currentSitkImage = some sampleVolume ∧
    App.initState.proc.currentSitkImage = none ∧
    (App.loadDicomSeries sampleDicomInput false .ok
        App.initState).1.proc.imageMetadata ≠
      App.initState.proc.imageMetadata := by
  decide

/-- A failing `load_dicom_series` leaves the processor state
untouched: every `return None` precedes the store. -/
theorem load_dicom_none_unchanged (inp : Processor.DicomInput)
    (p : Processor.State)
    (h : (Processor.load_dicom_series inp p).1 = none) :
    (Processor.load_dicom_series inp p).2.1 = p := by
  unfold Processor.load_dicom_series at h ⊢
  repeat' split <;> simp_all

/-- An absent directory or a raising reader makes `load_dicom_series`
fail. -/
theorem load_dicom_fails (inp : Processor.DicomInput)
    (p : Processor.State)
    (h : inp.dirExists = false ∨ inp.readResult = none) :
    (Processor.load_dicom_series inp p).1 = none := by
  unfold Processor.load_dicom_series
  rcases h with h | h <;> repeat' split
  all_goals first | rfl | simp_all

/-- A failing `load_stl_file` leaves the processor state untouched. -/
theorem load_stl_none_unchanged (inp : Processor.StlInput)
    (p : Processor.State)
    (h : (Processor.load_stl_file inp p).1 = none) :
    (Processor.load_stl_file inp p).2.1 = p := by
  unfold Processor.load_stl_file at h ⊢
  repeat' split <;> simp_all

/-- An absent file, a raising reader, or a zero-point mesh makes
`load_stl_file` fail. -/
theorem load_stl_fails (inp : Processor.StlInput) (p : Processor.State)
    (h : inp.fileExists = false ∨ inp.readOutput = none ∨
      (∃ m : Mesh, inp.readOutput = some m ∧ m.numPoints = 0)) :
    (Processor.load_stl_file inp p).1 = none := by
  unfold Processor.load_stl_file
  rcases h with h | h | ⟨m, hm, hpts⟩ <;> repeat' split
  all_goals first | rfl | simp_all

/-- When DICOM validation fails or the series read fails,
`loadDicomSeries` reports an error and leaves the whole application
state unchanged. -/
theorem loadDicom_early_failure (s : App.State)
    (inp : Processor.DicomInput) (convOk : Bool)
    (rout : Renderer.RenderOutcome)
    (h : (Processor.validate_dicom_integrity inp).1 = false ∨
      (Processor.load_dicom_series inp s.proc).1 = none) :
    (App.loadDicomSeries inp convOk rout s).1 = s ∧
      ((App.loadDicomSeries inp convOk rout s).2.any App.Ev.isError) =
        true := by
  unfold App.loadDicomSeries
  rcases h with h | h
  · simp [h, App.Ev.isError]
  · have hp := load_dicom_none_unchanged inp s.proc h
    by_cases hval : (Processor.validate_dicom_integrity inp).1 <;>
      simp [hval, h, hp, App.Ev.isError]

/-- When the STL read fails, `loadStlFile` reports an error and leaves
the whole application state unchanged. -/
theorem loadStl_early_failure (s : App.State) (inp : Processor.StlInput)
    (rout : Renderer.RenderOutcome)
    (h : (Processor.load_stl_file inp s.proc).1 = none) :
    (App.loadStlFile inp rout s).1 = s ∧
      ((App.loadStlFile inp rout s).2.any App.Ev.isError) = true := by
  unfold App.loadStlFile
  have hp := load_stl_none_unchanged inp s.proc h
  simp [h, hp, App.Ev.isError]

/-- C4 amended: a load failure detected before the new data is stored
— absent path (NotFound), empty or invalid series enumeration
(NoSeries), a raising reader (wrapped library error), an absent STL
file, a raising STL reader, or a zero-point mesh (EmptyMesh) — reports
the failure and leaves the entire application state (resident
Volume/Mesh slots, Metadata Map, Display Mode, current type)
unchanged.  A wrapped library error occurring after a successful read
(during format conversion or display) still reports failure, but the
resident Volume slot and Metadata Map have by then already been
overwritten (see the counterexample). -/
theorem C4_pre_store_failures_mutate_nothing :
    (∀ (s : App.State) (inp : Processor.DicomInput) (convOk : Bool)
        (rout : Renderer.RenderOutcome),
      (inp.dirExists = false ∨ inp.series = [] ∨
        (∃ rest, inp.series = [] :: rest) ∨ inp.readResult = none) →
      (App.loadDicomSeries inp convOk rout s).1 = s ∧
        ((App.loadDicomSeries inp convOk rout s).2.any App.Ev.isError) =
          true) ∧
    (∀ (s : App.State) (inp : Processor.StlInput)
        (rout : Renderer.RenderOutcome),
      (inp.fileExists = false ∨ inp.readOutput = none ∨
        (∃ m : Mesh, inp.readOutput = some m ∧ m.numPoints = 0)) →
      (App.loadStlFile inp rout s).1 = s ∧
        ((App.loadStlFile inp rout s).2.any App.Ev.isError) = true) := by
  constructor
  · intro s inp convOk rout h
    apply loadDicom_early_failure
    rcases h with h | h | ⟨rest, h⟩ | h
    · exact Or.inr (load_dicom_fails inp s.proc (Or.inl h))
    · left
      simp [Processor.validate_dicom_integrity, h]
    · left
      simp [Processor.validate_dicom_integrity, h]
    · exact Or.inr (load_dicom_fails inp s.proc (Or.inr h))
  · intro s inp rout h
    exact loadStl_early_failure s inp rout (load_stl_fails inp s.proc h)

/-- C4 amended, witness: a non-existent DICOM directory and an empty
STL mesh both leave the initial state untouched while reporting an
error. -/
theorem C4_pre_store_failures_mutate_nothing_witness :
    ((App.loadDicomSeries ⟨"/nope", false, [["a.dcm"]], some sampleVolume⟩
          true .ok App.initState).1 = App.initState ∧
      ((App.loadDicomSeries ⟨"/nope", false, [["a.dcm"]], some sampleVolume⟩
          true .ok App.initState).2.any App.Ev.isError) = true) ∧
    ((App.loadStlFile ⟨"/data/empty.stl", true, some ⟨0, 0⟩⟩ .ok
          App.initState).1 = App.initState ∧
      ((App.loadStlFile ⟨"/data/empty.stl", true, some ⟨0, 0⟩⟩ .ok
          App.initState).2.any App.Ev.isError) = true) :=
  ⟨C4_pre_store_failures_mutate_nothing.1 App.initState
      ⟨"/nope", false, [["a.dcm"]], some sampleVolume⟩ true .ok
      (Or.inl rfl),
   C4_pre_store_failures_mutate_nothing.2 App.initState
      ⟨"/data/empty.stl", true, some ⟨0, 0⟩⟩ .ok
      (Or.inr (Or.inr ⟨⟨0, 0⟩, rfl, rfl⟩))⟩

/-- C5: for a volume with scalar range [scalarMin, scalarMax],
`display_2d_image` applies to the windowing transform exactly
`window = scalarMax - scalarMin` when no window is supplied and
`level = (scalarMax + scalarMin) / 2` when no level is supplied, and
applies explicitly supplied parameters unchanged (all four
combinations, via `Option.getD`). -/
theorem C5_default_window_level (r : Renderer.State) (v : Volume)
    (window level : Option ℚ) (out : Renderer.RenderOutcome)
    (hav : r.available = true) (hout : out ≠ .failEarly) :
    ((Renderer.display_2d_image v window level out r).2).windowLevel =
      some (window.getD (v.scalarMax - v.scalarMin),
            level.getD ((v.scalarMax + v.scalarMin) / 2)) := by
  unfold Renderer.display_2d_image
  cases out <;> simp_all

/-- C5, witness: on `sampleVolume` (range [0, 100]) with neither
parameter supplied, the transform receives window 100 and level 50; an
explicit pair is passed through unchanged. -/
theorem C5_default_window_level_witness :
    ((Renderer.display_2d_image sampleVolume none none .ok
        Renderer.initState).2).windowLevel = some (100, 50) ∧
    ((Renderer.display_2d_image sampleVolume (some 400) (some 40) .ok
        Renderer.initState).2).windowLevel = some (400, 40) := by
  constructor
  · have h := C5_default_window_level Renderer.initState sampleVolume
      none none .ok rfl (by decide)
    rw [h]
    norm_num [sampleVolume]
  · have h := C5_default_window_level Renderer.initState sampleVolume
      (some 400) (some 40) .ok rfl (by decide)
    rw [h]
    norm_num

/-- C6: in 3D-Volume mode with a resident volume of scalar range
[mn, mx], switching to each named preset succeeds and installs exactly
the documented fixed breakpoints — a 4-point colour ramp and an
opacity ramp at fixed fractions of the scalar range (for ct_bone:
opacity points at mn, mn + 0.1·(mx − mn), mn + 0.4·(mx − mn), mx with
opacities 0.0, 0.0, 0.5, 1.0) — and the transfer functions depend only
on the preset name and the scalar range. -/
theorem C6_preset_breakpoints (r : Renderer.State) (v : Volume)
    (hmode : r.currentDisplayMode = some .mode3D)
    (himg : r.currentVtkImage = some v) :
    (Renderer.update_3d_transfer_function "ct_bone" r).1 = true ∧
    (Renderer.update_3d_transfer_function "ct_bone" r).2.colorFunc =
      [⟨v.scalarMin, 0, 0, 0⟩,
       ⟨v.scalarMin + 0.2 * (v.scalarMax - v.scalarMin), 0.2, 0.1, 0.05⟩,
       ⟨v.scalarMin + 0.5 * (v.scalarMax - v.scalarMin), 0.8, 0.7, 0.6⟩,
       ⟨v.scalarMax, 1, 1, 1⟩] ∧
    (Renderer.update_3d_transfer_function "ct_bone" r).2.opacityFunc =
      [⟨v.scalarMin, 0⟩,
       ⟨v.scalarMin + 0.1 * (v.scalarMax - v.scalarMin), 0⟩,
       ⟨v.scalarMin + 0.4 * (v.scalarMax - v.scalarMin), 0.5⟩,
       ⟨v.scalarMax, 1⟩] ∧
    (Renderer.update_3d_transfer_function "ct_soft_tissue" r).1 = true ∧
    (Renderer.update_3d_transfer_function "ct_soft_tissue" r).2.colorFunc =
      [⟨v.scalarMin, 0, 0, 0⟩,
       ⟨v.scalarMin + 0.3 * (v.scalarMax - v.scalarMin), 0.8, 0.4, 0.2⟩,
       ⟨v.scalarMin + 0.7 * (v.scalarMax - v.scalarMin), 1, 0.8, 0.6⟩,
       ⟨v.scalarMax, 1, 1, 1⟩] ∧
    (Renderer.update_3d_transfer_function "ct_soft_tissue" r).2.opacityFunc =
      [⟨v.scalarMin, 0⟩,
       ⟨v.scalarMin + 0.2 * (v.scalarMax - v.scalarMin), 0.1⟩,
       ⟨v.scalarMin + 0.5 * (v.scalarMax - v.scalarMin), 0.4⟩,
       ⟨v.scalarMax, 0.8⟩] ∧
    (Renderer.update_3d_transfer_function "default" r).1 = true ∧
    (Renderer.update_3d_transfer_function "default" r).2.colorFunc =
      [⟨v.scalarMin, 0, 0, 0⟩,
       ⟨v.scalarMin + 0.3 * (v.scalarMax - v.scalarMin), 0.5, 0.2, 0.1⟩,
       ⟨v.scalarMin + 0.6 * (v.scalarMax - v.scalarMin), 1, 0.7, 0.6⟩,
       ⟨v.scalarMax, 1, 1, 1⟩] ∧
    (Renderer.update_3d_transfer_function "default" r).2.opacityFunc =
      [⟨v.scalarMin, 0⟩,
       ⟨v.scalarMin + 0.1 * (v.scalarMax - v.scalarMin), 0⟩,
       ⟨v.scalarMin + 0.3 * (v.scalarMax - v.scalarMin), 0.3⟩,
       ⟨v.scalarMax, 1⟩] ∧
    (∀ (preset : String) (w : Volume), w.scalarMin = v.scalarMin →
      w.scalarMax = v.scalarMax →
      Renderer.setup_transfer_functions w preset =
        Renderer.setup_transfer_functions v preset) := by
  have hbase : ∀ preset : String,
      Renderer.update_3d_transfer_function preset r =
        (true, { r with
          colorFunc := (Renderer.setup_transfer_functions v preset).1,
          opacityFunc := (Renderer.setup_transfer_functions v preset).2 }) := by
    intro preset
    simp [Renderer.update_3d_transfer_function, himg, hmode]
  refine ⟨?_, ?_, ?_, ?_, ?_, ?_, ?_, ?_, ?_, ?_⟩
  · rw [hbase]
  · rw [hbase]
    simp [Renderer.setup_transfer_functions]
    norm_num
    constructor <;> ring
  · rw [hbase]
    simp [Renderer.setup_transfer_functions]
    norm_num
    constructor <;> ring
  · rw [hbase]
  · rw [hbase]
    simp [Renderer.setup_transfer_functions]
    norm_num
    constructor <;> ring
  · rw [hbase]
    simp [Renderer.setup_transfer_functions]
    norm_num
    constructor <;> ring
  · rw [hbase]
  · rw [hbase]
    simp [Renderer.setup_transfer_functions]
    norm_num
    constructor <;> ring
  · rw [hbase]
    simp [Renderer.setup_transfer_functions]
    norm_num
    constructor <;> ring
  · intro preset w hmin hmax
    unfold Renderer.setup_transfer_functions
    rw [hmin, hmax]

/-- C6, witness: switching `sample3DRendererState` (3D mode on
`sampleVolume`, range [0, 100]) to ct_bone succeeds, and the transfer
functions depend only on the scalar range. -/
theorem C6_preset_breakpoints_witness :
    (Renderer.update_3d_transfer_function "ct_bone"
        sample3DRendererState).1 = true ∧
    (Renderer.update_3d_transfer_function "ct_bone"
        sample3DRendererState).2.opacityFunc =
      [⟨0, 0⟩, ⟨0 + 0.1 * (100 - 0), 0⟩, ⟨0 + 0.4 * (100 - 0), 0.5⟩,
       ⟨100, 1⟩] ∧
    Renderer.setup_transfer_functions ⟨0, 100, (9, 9, 9)⟩ "ct_bone" =
      Renderer.setup_transfer_functions sampleVolume "ct_bone" := by
  have h := C6_preset_breakpoints sample3DRendererState sampleVolume
    rfl rfl
  exact ⟨h.1, h.2.2.1, h.2.2.2.2.2.2.2.2.2 "ct_bone" ⟨0, 100, (9, 9, 9)⟩
    rfl rfl⟩

/-- C7: `update_window_level` outside 2D mode (in particular in STL
mode) returns `False` and leaves the renderer state — windowing
transform, actors, display mode, everything — unchanged; in 2D mode
with an existing windowing transform it mutates only that transform in
place. -/
theorem C7_update_window_level_only_in_2d (r : Renderer.State)
    (window level : ℚ) :
    (r.currentDisplayMode ≠ some .mode2D →
      Renderer.update_window_level window level r = (false, r)) ∧
    (r.currentDisplayMode = some .mode2D → r.windowLevel.isSome = true →
      Renderer.update_window_level window level r =
        (true, { r with windowLevel := some (window, level) })) := by
  constructor
  · intro h
    simp [Renderer.update_window_level, h]
  · intro h hw
    have hne : r.windowLevel ≠ none := by
      intro hnone
      rw [hnone] at hw
      simp at hw
    simp [Renderer.update_window_level, h, hne]

/-- C7, witness: in STL mode the call fails and changes nothing; in 2D
mode it replaces only the windowing transform. -/
theorem C7_update_window_level_only_in_2d_witness :
    Renderer.update_window_level 200 40 sampleStlRendererState =
      (false, sampleStlRendererState) ∧
    Renderer.update_window_level 200 40 sample2DRendererState =
      (true, { sample2DRendererState with windowLevel := some (200, 40) }) :=
  ⟨(C7_update_window_level_only_in_2d sampleStlRendererState 200 40).1
      (by decide),
   (C7_update_window_level_only_in_2d sample2DRendererState 200 40).2
      rfl rfl⟩

/-- C8: `clearDisplay` is idempotent — a second call produces exactly
the same state as the first (Display Mode None, no resident volume or
mesh in either component, empty Metadata Map) and emits no error. -/
theorem C8_clear_idempotent (s : App.State) :
    (App.clearDisplay (App.clearDisplay s).1).1 = (App.clearDisplay s).1 ∧
    (App.clearDisplay s).1.rend.currentDisplayMode = none ∧
    (App.clearDisplay s).1.rend.currentVtkImage = none ∧
    (App.clearDisplay s).1.rend.currentPolydata = none ∧
    (App.clearDisplay s).1.proc.currentSitkImage = none ∧
    (App.clearDisplay s).1.proc.currentPolydata = none ∧
    (App.clearDisplay s).1.proc.imageMetadata = [] ∧
    ((App.clearDisplay (App.clearDisplay s).1).2.any App.Ev.isError) =
      false := by
  unfold App.clearDisplay Renderer.clear_display
    Processor.clear_current_data Processor.initState
  cases h : s.rend.available <;>
    simp [h, App.Ev.isError]

/-- C9: any preset name other than "ct_bone" and "ct_soft_tissue"
(misspellings included) installs exactly the default preset's
breakpoints, and `update_3d_transfer_function` in 3D-Volume mode with
such a name succeeds rather than failing. -/
theorem C9_unknown_preset_falls_back_to_default (v : Volume)
    (preset : String) (r : Renderer.State)
    (hb : preset ≠ "ct_bone") (hs : preset ≠ "ct_soft_tissue")
    (hmode : r.currentDisplayMode = some .mode3D)
    (himg : r.currentVtkImage = some v) :
    Renderer.setup_transfer_functions v preset =
      Renderer.setup_transfer_functions v "default" ∧
    (Renderer.update_3d_transfer_function preset r).1 = true := by
  constructor
  · simp [Renderer.setup_transfer_functions, hb, hs]
  · simp [Renderer.update_3d_transfer_function, himg, hmode]

/-- C9, witness: the misspelt preset "Bone" falls back to the default
breakpoints and the update succeeds in 3D mode. -/
theorem C9_unknown_preset_falls_back_to_default_witness :
    Renderer.setup_transfer_functions sampleVolume "Bone" =
      Renderer.setup_transfer_functions sampleVolume "default" ∧
    (Renderer.update_3d_transfer_function "Bone"
        sample3DRendererState).1 = true :=
  C9_unknown_preset_falls_back_to_default sampleVolume "Bone"
    sample3DRendererState (by decide) (by decide) rfl rfl

/-- C10: `get_metadata` returns a copy, not the internal dictionary:
the returned object is a fresh address, the call leaves the
processor's stored metadata unchanged, and any caller mutation of the
returned dictionary leaves both the stored metadata and all subsequent
`get_metadata` results unaffected. -/
theorem C10_get_metadata_returns_copy (h : Heap.Store) (p : Heap.ProcRef)
    (hv : p.metaAddr < h.cells.length) :
    (Heap.get_metadata h p).2 ≠ p.metaAddr ∧
    Heap.readDict (Heap.get_metadata h p).1 p.metaAddr =
      Heap.readDict h p.metaAddr ∧
    (∀ d : Processor.Dict,
      Heap.readDict
          (Heap.writeDict (Heap.get_metadata h p).1 (Heap.get_metadata h p).2 d)
          p.metaAddr = Heap.readDict h p.metaAddr ∧
      Heap.readDict
          (Heap.get_metadata
            (Heap.writeDict (Heap.get_metadata h p).1
              (Heap.get_metadata h p).2 d) p).1
          (Heap.get_metadata
            (Heap.writeDict (Heap.get_metadata h p).1
              (Heap.get_metadata h p).2 d) p).2 =
        Heap.readDict h p.metaAddr) := by
  have haddr : (Heap.get_metadata h p).2 = h.cells.length := rfl
  have hfresh : (Heap.get_metadata h p).2 ≠ p.metaAddr := by
    rw [haddr]
    omega
  have hread1 : Heap.readDict (Heap.get_metadata h p).1 p.metaAddr =
      Heap.readDict h p.metaAddr := by
    unfold Heap.readDict Heap.get_metadata Heap.alloc
    rw [List.get?_append hv]
  refine ⟨hfresh, hread1, ?_⟩
  intro d
  have hwrite : Heap.readDict
      (Heap.writeDict (Heap.get_metadata h p).1 (Heap.get_metadata h p).2 d)
      p.metaAddr = Heap.readDict h p.metaAddr := by
    unfold Heap.readDict Heap.writeDict
    rw [List.get?_set_ne _ _ (by rw [haddr]; omega)]
    exact hread1
  refine ⟨hwrite, ?_⟩
  unfold Heap.get_metadata Heap.alloc Heap.readDict
  simp only [List.get?_concat_length, Option.getD_some]
  exact hwrite

/-- C8, witness: `C8_clear_idempotent` at the initial state. -/
theorem C8_clear_idempotent_witness :
    (App.clearDisplay (App.clearDisplay App.initState).1).1 =
      (App.clearDisplay App.initState).1 ∧
    (App.clearDisplay App.initState).1.rend.currentDisplayMode = none ∧
    ((App.clearDisplay
        (App.clearDisplay App.initState).1).2.any App.Ev.isError) =
      false :=
  ⟨(C8_clear_idempotent App.initState).1,
   (C8_clear_idempotent App.initState).2.1,
   (C8_clear_idempotent App.initState).2.2.2.2.2.2.2⟩

/-- C10, witness: `C10_get_metadata_returns_copy` on a one-cell store
holding the processor's metadata at address 0; the caller clears the
returned copy and the stored metadata survives. -/
theorem C10_get_metadata_returns_copy_witness :
    (Heap.get_metadata ⟨[[("image_type", "DICOM")]]⟩ ⟨0⟩).2 ≠ 0 ∧
    Heap.readDict (Heap.get_metadata ⟨[[("image_type", "DICOM")]]⟩ ⟨0⟩).1 0 =
      [("image_type", "DICOM")] ∧
    Heap.readDict
        (Heap.writeDict (Heap.get_metadata ⟨[[("image_type", "DICOM")]]⟩ ⟨0⟩).1
          (Heap.get_metadata ⟨[[("image_type", "DICOM")]]⟩ ⟨0⟩).2 []) 0 =
      [("image_type", "DICOM")] := by
  have h := C10_get_metadata_returns_copy ⟨[[("image_type", "DICOM")]]⟩ ⟨0⟩
    (by decide)
  exact ⟨h.1, h.2.1.trans rfl, (h.2.2 []).1.trans rfl⟩
